import Mathlib

/-!
Shallow embedding of the PLS sowing-rate calculator (`src/PLS_App_V1.py`).

The core of the program is:
  * fixed score dictionaries (`soil_scores`, `paddock_prep_scores`,
    `sowing_method_scores`, `post_planting_scores`, `starter_fert_scores`,
    `planting_condition_scores`) and the `total_score` sum built from one
    chosen option per factor plus a multiselect of planting conditions;
  * `calculate_field_establishment` and `calculate_pls`;
  * the per-species sowing-rate computation: partition the species list into
    grass and legume sublists, compute one result row per species, append a
    synthetic "Total Mix" row summing all rates.

Numeric values are modelled as exact rationals (`ℚ`).  Python's
`ZeroDivisionError` (raised by `/` when the divisor is zero) and the pandas
`KeyError` (raised by the column access `df_results["Sowing Rate (kg/ha)"]`
when `results` is empty, so the DataFrame has no columns) are modelled as
explicit error values of an `Except` computation.
-/

namespace PLS

deriving instance DecidableEq for Except

/-- Python `ZeroDivisionError` and pandas `KeyError`: the only run-time
faults the calculation code can raise. -/
inductive CalcError where
  | zeroDivisionError
  | keyError
deriving DecidableEq, Repr

/-- Python division: raises `ZeroDivisionError` when the divisor is zero. -/
def pyDiv (a b : ℚ) : Except CalcError ℚ :=
  if b = 0 then .error .zeroDivisionError else .ok (a / b)

/-- `soil_scores` dictionary (line 37). -/
def soil_scores : List (String × ℤ) :=
  [("Sand", 40), ("Sandy Loam", 30), ("Loam", 15), ("Clay Loam", 10), ("Clay", 5)]

/-- `paddock_prep_scores` dictionary (line 38). -/
def paddock_prep_scores : List (String × ℤ) :=
  [("None", 10), ("Some Prep", 30), ("Full Prep", 60)]

/-- `sowing_method_scores` dictionary (line 39). -/
def sowing_method_scores : List (String × ℤ) :=
  [("Aerial", 50), ("Spreader", 50), ("Disk", 100), ("Combine", 100)]

/-- `post_planting_scores` dictionary (line 40). -/
def post_planting_scores : List (String × ℤ) :=
  [("Rolled", 100), ("Harrowed", 50), ("None", 0)]

/-- `starter_fert_scores` dictionary (line 41). -/
def starter_fert_scores : List (String × ℤ) :=
  [("Yes", 100), ("No", 0)]

/-- `planting_condition_scores` dictionary (lines 42-46). -/
def planting_condition_scores : List (String × ℤ) :=
  [("Good Soil Moisture", 20), ("Friable Seed Bed", 20), ("No Weeds/Competition", 20)]

/-- Python dictionary lookup `table[key]`: `none` models the `KeyError`
raised on a missing key. -/
def dictLookup (table : List (String × ℤ)) (key : String) : Option ℤ :=
  (table.find? (fun p => p.1 == key)).map Prod.snd

/-- `sum(planting_condition_scores[cond] for cond in planting_conditions)`
(line 166). -/
def conditions_score (conds : List String) : Option ℤ :=
  (conds.mapM (dictLookup planting_condition_scores)).map List.sum

/-- `total_score` (lines 160-167): sum of the five factor scores plus the
planting-condition scores; `none` models the `KeyError` on an unknown
option. -/
def total_score (soil prep method post fert : String) (conds : List String) :
    Option ℤ :=
  (dictLookup soil_scores soil).bind fun a =>
  (dictLookup paddock_prep_scores prep).bind fun b =>
  (dictLookup sowing_method_scores method).bind fun c =>
  (dictLookup post_planting_scores post).bind fun d =>
  (dictLookup starter_fert_scores fert).bind fun e =>
  (conditions_score conds).map fun f => a + b + c + d + e + f

/-- `calculate_field_establishment` (lines 49-50). -/
def calculate_field_establishment (total : ℚ) : ℚ :=
  0.05 + ((total - 115) / (500 - 115)) * (0.15 - 0.05)

/-- `calculate_pls` (lines 52-53). -/
def calculate_pls (purity germination : ℚ) : ℚ :=
  purity * germination

/-- Plant type chosen from the selectbox `["Grass", "Legume"]` (line 146). -/
inductive PlantType where
  | Grass
  | Legume
deriving DecidableEq, Repr

/-- The string the species dictionary stores for a plant type. -/
def PlantType.str : PlantType → String
  | .Grass => "Grass"
  | .Legume => "Legume"

/-- One species record of `species_data` (lines 148-154). -/
structure SpeciesInput where
  species : String
  plantType : PlantType
  germination : ℚ
  purity : ℚ
  seedsPerKg : ℚ
deriving DecidableEq, Repr

/-- `viable_seeds_per_kg = species['Seeds/kg'] * pls` (lines 185-186). -/
def viableSeedsPerKg (s : SpeciesInput) : ℚ :=
  s.seedsPerKg * calculate_pls s.purity s.germination

/-- One row of `results` / `df_results` (lines 191-195): species name, type
string ("" for the Total Mix row), sowing rate in kg/ha. -/
structure SowingResult where
  species : String
  type : String
  sowingRateKgPerHa : ℚ
deriving DecidableEq, Repr

/-- Body of the per-species loop (lines 184-195 for grass, 197-208 for
legume): the three Python divisions in source order. `n` is the length of
the species' type group. -/
def speciesRow (typeTarget : ℚ) (n : ℕ) (fe : ℚ) (s : SpeciesInput) :
    Except CalcError SowingResult :=
  let pls := calculate_pls s.purity s.germination
  let viable_seeds_per_kg := s.seedsPerKg * pls
  match pyDiv typeTarget (n : ℚ) with
  | .error e => .error e
  | .ok target_plants_per_m2_species =>
    match pyDiv target_plants_per_m2_species fe with
    | .error e => .error e
    | .ok adjusted_target_plants_per_m2 =>
      match pyDiv adjusted_target_plants_per_m2 viable_seeds_per_kg with
      | .error e => .error e
      | .ok sowing_rate_kg_per_m2 =>
        .ok ⟨s.species, s.plantType.str, sowing_rate_kg_per_m2 * 10000⟩

/-- The `for species in group:` loop over one type group, accumulating
result rows; the first failing division aborts the run. -/
def speciesRows (typeTarget : ℚ) (n : ℕ) (fe : ℚ) :
    List SpeciesInput → Except CalcError (List SowingResult)
  | [] => .ok []
  | s :: rest =>
    match speciesRow typeTarget n fe s with
    | .error e => .error e
    | .ok row =>
      match speciesRows typeTarget n fe rest with
      | .error e => .error e
      | .ok rows => .ok (row :: rows)

/-- `grass_species = [s for s in species_data if s['Plant Type'] == 'Grass']`
(line 179). -/
def grassOf (species : List SpeciesInput) : List SpeciesInput :=
  species.filter (fun s => s.plantType == PlantType.Grass)

/-- `legume_species = [s for s in species_data if s['Plant Type'] == 'Legume']`
(line 180). -/
def legumeOf (species : List SpeciesInput) : List SpeciesInput :=
  species.filter (fun s => s.plantType == PlantType.Legume)

/-- The Total Mix row (lines 213-218). -/
def totalMixRow (results : List SowingResult) : SowingResult :=
  ⟨"🌿 Total Mix", "", (results.map SowingResult.sowingRateKgPerHa).sum⟩

/-- The calculation block of lines 176-219: per-type targets from the split,
grass loop then legume loop, then the Total Mix row.  When `results` is
empty, `df_results["Sowing Rate (kg/ha)"]` raises a pandas `KeyError`
(an empty `DataFrame` has no columns). -/
def computeSowingRates (fe totalTarget grassSplit : ℚ)
    (species : List SpeciesInput) : Except CalcError (List SowingResult) :=
  let legumeSplit := 100 - grassSplit
  let totalGrass := totalTarget * (grassSplit / 100)
  let totalLegume := totalTarget * (legumeSplit / 100)
  let grass_species := grassOf species
  let legume_species := legumeOf species
  match speciesRows totalGrass grass_species.length fe grass_species with
  | .error e => .error e
  | .ok grassRows =>
    match speciesRows totalLegume legume_species.length fe legume_species with
    | .error e => .error e
    | .ok legumeRows =>
      let results := grassRows ++ legumeRows
      if results = [] then .error .keyError
      else .ok (results ++ [totalMixRow results])

/-- The closed form of one result row when every division succeeds: the
species receives the equal share `typeTarget / n` of its type's target
density, and the rate is `((typeTarget / n) / fe) / (seedsPerKg × purity ×
germination) × 10000`. -/
def expectedRow (typeTarget : ℚ) (n : ℕ) (fe : ℚ) (s : SpeciesInput) : SowingResult :=
  ⟨s.species, s.plantType.str,
    typeTarget / n / fe / (s.seedsPerKg * s.purity * s.germination) * 10000⟩

/-- The per-species part of the output in closed form: grass rows (input
order) then legume rows (input order). -/
def perSpeciesRows (fe totalTarget grassSplit : ℚ) (species : List SpeciesInput) :
    List SowingResult :=
  (grassOf species).map
      (expectedRow (totalTarget * (grassSplit / 100)) (grassOf species).length fe)
    ++ (legumeOf species).map
      (expectedRow (totalTarget * ((100 - grassSplit) / 100)) (legumeOf species).length fe)

/-- Scaling of one result row: same species and type, rate multiplied by
`k`. -/
def scaleRow (k : ℚ) (r : SowingResult) : SowingResult :=
  ⟨r.species, r.type, k * r.sowingRateKgPerHa⟩

/-- The sublist of the input belonging to one plant type (the loop's
iteration domain for that type). -/
def typeGroupOf (pt : PlantType) (species : List SpeciesInput) : List SpeciesInput :=
  match pt with
  | .Grass => grassOf species
  | .Legume => legumeOf species

/-- The target plant density of one plant type: the total target split by
the type's percentage (lines 176-177). -/
def typeTargetOf (pt : PlantType) (totalTarget grassSplit : ℚ) : ℚ :=
  match pt with
  | .Grass => totalTarget * (grassSplit / 100)
  | .Legume => totalTarget * ((100 - grassSplit) / 100)

lemma speciesRow_ok (tt : ℚ) (n : ℕ) (fe : ℚ) (s : SpeciesInput)
    (hn : n ≠ 0) (hfe : fe ≠ 0) (hv : viableSeedsPerKg s ≠ 0) :
    speciesRow tt n fe s = .ok (expectedRow tt n fe s) := by
  have hnq : (n : ℚ) ≠ 0 := Nat.cast_ne_zero.mpr hn
  have hv2 : ¬(s.seedsPerKg = 0 ∨ s.purity = 0 ∨ s.germination = 0) := by
    simpa [viableSeedsPerKg, calculate_pls, mul_eq_zero] using hv
  simp [speciesRow, pyDiv, hnq, hfe, hv2, expectedRow, calculate_pls, mul_assoc]

lemma speciesRows_ok (tt : ℚ) (n : ℕ) (fe : ℚ) (l : List SpeciesInput)
    (hn : l ≠ [] → n ≠ 0) (hfe : fe ≠ 0)
    (hv : ∀ s ∈ l, viableSeedsPerKg s ≠ 0) :
    speciesRows tt n fe l = .ok (l.map (expectedRow tt n fe)) := by
  induction l with
  | nil => rfl
  | cons s rest ih =>
      have h1 := speciesRow_ok tt n fe s (hn (by simp)) hfe (hv s (by simp))
      have h2 := ih (fun _ => hn (by simp)) (fun x hx => hv x (List.mem_cons_of_mem _ hx))
      simp [speciesRows, h1, h2]

lemma pyDiv_error_imp (a b : ℚ) (e : CalcError) (h : pyDiv a b = .error e) :
    e = .zeroDivisionError := by
  unfold pyDiv at h
  split at h
  · exact (Except.error.inj h).symm
  · cases h

lemma speciesRow_error_imp (tt : ℚ) (n : ℕ) (fe : ℚ) (s : SpeciesInput) (e : CalcError)
    (h : speciesRow tt n fe s = .error e) : e = .zeroDivisionError := by
  simp only [speciesRow] at h
  split at h
  next e1 heq => injection h with h1; subst h1; exact pyDiv_error_imp _ _ _ heq
  next x heq =>
    split at h
    next e1 heq2 => injection h with h1; subst h1; exact pyDiv_error_imp _ _ _ heq2
    next y heq2 =>
      split at h
      next e1 heq3 => injection h with h1; subst h1; exact pyDiv_error_imp _ _ _ heq3
      next z heq3 => cases h

lemma speciesRows_error_imp (tt : ℚ) (n : ℕ) (fe : ℚ) (l : List SpeciesInput) (e : CalcError)
    (h : speciesRows tt n fe l = .error e) : e = .zeroDivisionError := by
  induction l with
  | nil => cases h
  | cons s rest ih =>
      simp only [speciesRows] at h
      split at h
      next e1 heq => injection h with h1; subst h1; exact speciesRow_error_imp _ _ _ _ _ heq
      next row heq =>
        split at h
        next e1 heq2 => injection h with h1; subst h1; exact ih heq2
        next rows heq2 => cases h

lemma speciesRow_ok_inv (tt : ℚ) (n : ℕ) (fe : ℚ) (s : SpeciesInput) (r : SowingResult)
    (h : speciesRow tt n fe s = .ok r) :
    r.species = s.species ∧ r.type = s.plantType.str ∧ viableSeedsPerKg s ≠ 0 := by
  simp only [speciesRow] at h
  split at h
  next => cases h
  next x heq =>
    split at h
    next => cases h
    next y heq2 =>
      split at h
      next => cases h
      next z heq3 =>
        injection h with h1; subst h1
        refine ⟨rfl, rfl, ?_⟩
        intro hv
        have hv' : s.seedsPerKg * calculate_pls s.purity s.germination = 0 := by
          simpa [viableSeedsPerKg] using hv
        simp [pyDiv, hv'] at heq3

lemma speciesRows_ok_inv (tt : ℚ) (n : ℕ) (fe : ℚ) (l : List SpeciesInput)
    (rows : List SowingResult) (h : speciesRows tt n fe l = .ok rows) :
    rows.map (fun r => (r.species, r.type)) =
        l.map (fun s => (s.species, s.plantType.str)) ∧
      ∀ s ∈ l, viableSeedsPerKg s ≠ 0 := by
  induction l generalizing rows with
  | nil =>
      simp only [speciesRows] at h
      injection h with h1
      subst h1
      simp
  | cons s rest ih =>
      simp only [speciesRows] at h
      split at h
      next => cases h
      next row heq =>
        split at h
        next => cases h
        next rs heq2 =>
          injection h with h1; subst h1
          obtain ⟨e1, e2, e3⟩ := speciesRow_ok_inv _ _ _ _ _ heq
          obtain ⟨e4, e5⟩ := ih _ heq2
          constructor
          · simp [e1, e2, e4]
          · intro x hx
            rcases List.mem_cons.mp hx with rfl | hx2
            · exact e3
            · exact e5 x hx2

lemma speciesRows_ok_type_ne (tt : ℚ) (n : ℕ) (fe : ℚ) (l : List SpeciesInput)
    (rows : List SowingResult) (h : speciesRows tt n fe l = .ok rows) :
    ∀ r ∈ rows, r.type ≠ "" := by
  induction l generalizing rows with
  | nil =>
      simp only [speciesRows] at h
      injection h with h1
      subst h1
      simp
  | cons s rest ih =>
      simp only [speciesRows] at h
      split at h
      next => cases h
      next row heq =>
        split at h
        next => cases h
        next rs heq2 =>
          injection h with h1; subst h1
          intro r hr
          rcases List.mem_cons.mp hr with rfl | hr2
          · obtain ⟨-, e2, -⟩ := speciesRow_ok_inv _ _ _ _ _ heq
            rw [e2]
            cases s.plantType <;> simp [PlantType.str]
          · exact ih _ heq2 r hr2

lemma grass_add_legume_length (l : List SpeciesInput) :
    (grassOf l).length + (legumeOf l).length = l.length := by
  induction l with
  | nil => rfl
  | cons s rest ih =>
      cases h : s.plantType <;>
        simp [grassOf, legumeOf, List.filter_cons, h] at ih ⊢ <;> omega

lemma perSpeciesRows_ne_nil (fe totalTarget grassSplit : ℚ) (species : List SpeciesInput)
    (hne : species ≠ []) :
    perSpeciesRows fe totalTarget grassSplit species ≠ [] := by
  intro h0
  have hlen := grass_add_legume_length species
  have hthis := congrArg List.length h0
  simp only [perSpeciesRows, List.length_append, List.length_map, List.length_nil] at hthis
  rw [hlen] at hthis
  exact hne (List.length_eq_zero.mp hthis)

/-- Closed form of a successful run: with a nonzero field establishment,
nonzero viable yields and a nonempty species list, the computation
succeeds and returns the per-species rows followed by the Total Mix row. -/
lemma computeSowingRates_ok (fe totalTarget grassSplit : ℚ) (species : List SpeciesInput)
    (hfe : fe ≠ 0) (hv : ∀ s ∈ species, viableSeedsPerKg s ≠ 0) (hne : species ≠ []) :
    computeSowingRates fe totalTarget grassSplit species =
      .ok (perSpeciesRows fe totalTarget grassSplit species
        ++ [totalMixRow (perSpeciesRows fe totalTarget grassSplit species)]) := by
  have hg := speciesRows_ok (totalTarget * (grassSplit / 100)) (grassOf species).length fe
      (grassOf species)
      (fun h0 hl => h0 (List.length_eq_zero.mp hl))
      hfe (fun s hs => hv s (List.mem_of_mem_filter hs))
  have hl := speciesRows_ok (totalTarget * ((100 - grassSplit) / 100)) (legumeOf species).length
      fe (legumeOf species)
      (fun h0 hl => h0 (List.length_eq_zero.mp hl))
      hfe (fun s hs => hv s (List.mem_of_mem_filter hs))
  have hres := perSpeciesRows_ne_nil fe totalTarget grassSplit species hne
  simp only [computeSowingRates, hg, hl]
  rw [if_neg ?_]
  · rfl
  · simpa [perSpeciesRows] using hres

lemma dictLookup_mem (tbl : List (String × ℤ)) (k : String) (v : ℤ)
    (h : dictLookup tbl k = some v) : v ∈ tbl.map Prod.snd := by
  unfold dictLookup at h
  cases hf : tbl.find? (fun p => p.1 == k) with
  | none => rw [hf] at h; cases h
  | some p =>
      rw [hf] at h
      simp only [Option.map_some'] at h
      injection h with h1
      exact h1 ▸ List.mem_map.mpr ⟨p, List.mem_of_find?_eq_some hf, rfl⟩

lemma cond_lookup_eq (c : String)
    (hc : c ∈ planting_condition_scores.map Prod.fst) :
    dictLookup planting_condition_scores c = some 20 := by
  fin_cases hc <;> rfl

lemma conditions_score_of_sub (conds : List String)
    (h : ∀ c ∈ conds, dictLookup planting_condition_scores c = some 20) :
    conditions_score conds = some (20 * conds.length) := by
  induction conds with
  | nil => rfl
  | cons c rest ih =>
      have hc := h c (by simp)
      have hr := ih (fun x hx => h x (List.mem_cons_of_mem _ hx))
      unfold conditions_score at hr ⊢
      obtain ⟨l, hl, hsum⟩ := Option.map_eq_some'.mp hr
      rw [List.mapM_cons, hc, hl]
      simp [List.sum_cons]
      omega

lemma speciesRows_fe_zero (tt : ℚ) (n : ℕ) (s : SpeciesInput) (rest : List SpeciesInput)
    (hn : n ≠ 0) :
    speciesRows tt n 0 (s :: rest) = .error .zeroDivisionError := by
  have hnq : (n : ℚ) ≠ 0 := Nat.cast_ne_zero.mpr hn
  simp [speciesRows, speciesRow, pyDiv, hnq]

lemma speciesRows_viable_zero (tt : ℚ) (n : ℕ) (fe : ℚ) (l : List SpeciesInput)
    (s : SpeciesInput) (hs : s ∈ l) (hv : viableSeedsPerKg s = 0)
    (hn : n ≠ 0) (hfe : fe ≠ 0) :
    speciesRows tt n fe l = .error .zeroDivisionError := by
  induction l with
  | nil => cases hs
  | cons a rest ih =>
      have hnq : (n : ℚ) ≠ 0 := Nat.cast_ne_zero.mpr hn
      by_cases ha : viableSeedsPerKg a = 0
      · have ha2 : a.seedsPerKg = 0 ∨ a.purity = 0 ∨ a.germination = 0 := by
          simpa [viableSeedsPerKg, calculate_pls, mul_eq_zero] using ha
        simp [speciesRows, speciesRow, pyDiv, hnq, hfe, calculate_pls, ha2]
      · have hs2 : s ∈ rest := by
          rcases List.mem_cons.mp hs with rfl | h2
          · exact absurd hv ha
          · exact h2
        have ha2 : ¬(a.seedsPerKg = 0 ∨ a.purity = 0 ∨ a.germination = 0) := by
          simpa [viableSeedsPerKg, calculate_pls, mul_eq_zero] using ha
        simp [speciesRows, speciesRow, pyDiv, hnq, hfe, calculate_pls, ha2, ih hs2]

lemma expectedRow_scale (k tt : ℚ) (n : ℕ) (fe : ℚ) (s : SpeciesInput) :
    expectedRow (k * tt) n fe s = scaleRow k (expectedRow tt n fe s) := by
  simp only [expectedRow, scaleRow]
  refine congrArg (fun x => SowingResult.mk s.species s.plantType.str x) ?_
  ring

lemma sum_map_scale (k : ℚ) (l : List SowingResult) :
    (l.map (fun r => k * r.sowingRateKgPerHa)).sum
      = k * (l.map SowingResult.sowingRateKgPerHa).sum := by
  induction l with
  | nil => simp
  | cons r rest ih => simp [ih]; ring

lemma totalMixRow_scale (k : ℚ) (l : List SowingResult) :
    totalMixRow (l.map (scaleRow k)) = scaleRow k (totalMixRow l) := by
  simp only [totalMixRow, scaleRow, List.map_map]
  refine congrArg (fun x => SowingResult.mk "🌿 Total Mix" "" x) ?_
  simpa [Function.comp] using sum_map_scale k l

lemma perSpeciesRows_scale (fe totalTarget grassSplit k : ℚ) (species : List SpeciesInput) :
    perSpeciesRows fe (k * totalTarget) grassSplit species =
      (perSpeciesRows fe totalTarget grassSplit species).map (scaleRow k) := by
  have h1 : ∀ s ∈ grassOf species,
      expectedRow (k * totalTarget * (grassSplit / 100)) (grassOf species).length fe s
        = scaleRow k
            (expectedRow (totalTarget * (grassSplit / 100)) (grassOf species).length fe s) := by
    intro s _
    rw [show k * totalTarget * (grassSplit / 100)
        = k * (totalTarget * (grassSplit / 100)) by ring]
    exact expectedRow_scale k _ _ fe s
  have h2 : ∀ s ∈ legumeOf species,
      expectedRow (k * totalTarget * ((100 - grassSplit) / 100)) (legumeOf species).length fe s
        = scaleRow k
            (expectedRow (totalTarget * ((100 - grassSplit) / 100))
              (legumeOf species).length fe s) := by
    intro s _
    rw [show k * totalTarget * ((100 - grassSplit) / 100)
        = k * (totalTarget * ((100 - grassSplit) / 100)) by ring]
    exact expectedRow_scale k _ _ fe s
  simp only [perSpeciesRows, List.map_append, List.map_map]
  rw [List.map_congr_left h1, List.map_congr_left h2]
  rfl

end PLS

namespace PLS

/-- C1. `computeFieldEstablishment(totalScore)` is exactly the unclamped
linear interpolation `0.05 + ((totalScore - 115) / (500 - 115)) * (0.15 - 0.05)`
for every integer total score; it maps 115 to 0.05 and 500 to 0.15 exactly,
and scores below 115 (above 500) give fractions below 0.05 (above 0.15). -/
theorem C1_field_establishment_linear (totalScore : ℤ) :
    calculate_field_establishment (totalScore : ℚ) =
        0.05 + (((totalScore : ℚ) - 115) / (500 - 115)) * (0.15 - 0.05) ∧
      calculate_field_establishment ((115 : ℤ) : ℚ) = 0.05 ∧
      calculate_field_establishment ((500 : ℤ) : ℚ) = 0.15 ∧
      (totalScore < 115 → calculate_field_establishment (totalScore : ℚ) < 0.05) ∧
      (500 < totalScore → 0.15 < calculate_field_establishment (totalScore : ℚ)) := by
  have hx : calculate_field_establishment (totalScore : ℚ)
      = 1 / 20 + ((totalScore : ℚ) - 115) / 3850 := by
    rw [calculate_field_establishment]
    norm_num
    ring
  refine ⟨rfl, by norm_num [calculate_field_establishment],
    by norm_num [calculate_field_establishment], ?_, ?_⟩
  · intro h
    have h2 : (totalScore : ℚ) < 115 := by exact_mod_cast h
    rw [hx]
    have h3 : ((totalScore : ℚ) - 115) / 3850 < 0 :=
      div_neg_of_neg_of_pos (by linarith) (by norm_num)
    norm_num
    linarith
  · intro h
    have h2 : (500 : ℚ) < (totalScore : ℚ) := by exact_mod_cast h
    rw [hx]
    have h3 : (1 / 10 : ℚ) < ((totalScore : ℚ) - 115) / 3850 := by
      rw [lt_div_iff₀ (by norm_num : (0 : ℚ) < 3850)]
      linarith
    norm_num
    linarith

/-- Witness for C1: the out-of-band directions at total scores 100 and
600. -/
theorem C1_witness :
    calculate_field_establishment ((100 : ℤ) : ℚ) < 0.05 ∧
      0.15 < calculate_field_establishment ((600 : ℤ) : ℚ) :=
  ⟨(C1_field_establishment_linear 100).2.2.2.1 (by norm_num),
    (C1_field_establishment_linear 600).2.2.2.2 (by norm_num)⟩

/-- C9. `computePLS(p, g)` is exactly `p * g` for all inputs, with no
range enforcement on either input. -/
theorem C9_pls_eq_mul (p g : ℚ) : calculate_pls p g = p * g := rfl

/-- C4 counterexample. The claim says every achievable total score lies
in [115, 500]; but choosing Clay / None / Aerial / None / No with no
planting conditions gives total score 65, which is below 115. -/
theorem C4_counterexample :
    total_score "Clay" "None" "Aerial" "None" "No" [] = some 65 ∧
      ¬((115 : ℤ) ≤ 65) := by
  constructor
  · decide
  · decide

/-- C4 amended. Under the fixed lookup tables the achievable total
scores lie in [65, 460] (not [115, 500]): every valid choice of one option
per factor plus a sub-selection of the three planting conditions sums to a
total in that interval, and both endpoints are attained. -/
theorem C4_amended (soil prep method post fert : String) (conds : List String) (t : ℤ)
    (hconds : conds.Sublist (planting_condition_scores.map Prod.fst))
    (h : total_score soil prep method post fert conds = some t) :
    (65 ≤ t ∧ t ≤ 460) ∧
      total_score "Clay" "None" "Aerial" "None" "No" [] = some 65 ∧
      total_score "Sand" "Full Prep" "Disk" "Rolled" "Yes"
        ["Good Soil Moisture", "Friable Seed Bed", "No Weeds/Competition"] = some 460 := by
  refine ⟨?_, by decide, by decide⟩
  unfold total_score at h
  simp only [Option.bind_eq_some, Option.map_eq_some'] at h
  obtain ⟨a, ha, b, hb, c, hc, d, hd, e, he, f, hf, heq⟩ := h
  have hcf := conditions_score_of_sub conds
      (fun x hx => cond_lookup_eq x (hconds.subset hx))
  rw [hcf] at hf
  injection hf with hf1
  have hlen : conds.length ≤ 3 := by
    have := hconds.length_le
    simpa [planting_condition_scores] using this
  have Ba := dictLookup_mem _ _ _ ha
  have Bb := dictLookup_mem _ _ _ hb
  have Bc := dictLookup_mem _ _ _ hc
  have Bd := dictLookup_mem _ _ _ hd
  have Be := dictLookup_mem _ _ _ he
  simp only [soil_scores, paddock_prep_scores, sowing_method_scores, post_planting_scores,
    starter_fert_scores, List.map_cons, List.map_nil, List.mem_cons,
    List.not_mem_nil, or_false] at Ba Bb Bc Bd Be
  subst heq
  rcases Ba with rfl | rfl | rfl | rfl | rfl <;>
    rcases Bb with rfl | rfl | rfl <;>
      rcases Bc with rfl | rfl | rfl | rfl <;>
        rcases Bd with rfl | rfl | rfl <;>
          rcases Be with rfl | rfl <;>
            omega

/-- Witness for C4 amended: a mid-range choice (Loam / None / Aerial /
None / No, no conditions) scores 75, inside [65, 460]; the endpoint
choices score 65 and 460. -/
theorem C4_witness :
    ((65 : ℤ) ≤ 75 ∧ (75 : ℤ) ≤ 460) ∧
      total_score "Clay" "None" "Aerial" "None" "No" [] = some 65 ∧
      total_score "Sand" "Full Prep" "Disk" "Rolled" "Yes"
        ["Good Soil Moisture", "Friable Seed Bed", "No Weeds/Competition"] = some 460 :=
  C4_amended "Loam" "None" "Aerial" "None" "No" [] 75 (List.nil_sublist _) (by decide)

/-- C2. With a positive field establishment and positive viable seed
yields, every species of a type with `n ≥ 1` species receives the equal
share `typeTargetDensity / n` of its type's target density, and its output
rate is `((typeTargetDensity / n) / fe) / (seedsPerKg * purity *
germination) * 10000` kg/ha (see `expectedRow`); the output is exactly
those rows followed by the Total Mix row. -/
theorem C2_equal_share_rates (fe totalTarget grassSplit : ℚ) (species : List SpeciesInput)
    (hfe : 0 < fe) (hv : ∀ s ∈ species, 0 < viableSeedsPerKg s) (hne : species ≠ []) :
    computeSowingRates fe totalTarget grassSplit species =
      .ok (perSpeciesRows fe totalTarget grassSplit species
        ++ [totalMixRow (perSpeciesRows fe totalTarget grassSplit species)]) :=
  computeSowingRates_ok fe totalTarget grassSplit species (ne_of_gt hfe)
    (fun s hs => ne_of_gt (hv s hs)) hne

/-- Witness for C2: the spec's example scenario.  Total score 115 gives
field establishment 0.05; one grass species with purity 0.9, germination
0.7, 300000 seeds/kg, target 10 plants/m² and a 100% grass split yields
2000000/189000 ≈ 10.58 kg/ha. -/
theorem C2_witness :
    computeSowingRates (calculate_field_establishment 115) 10 100
        [⟨"Ryegrass", .Grass, 7/10, 9/10, 300000⟩] =
      .ok [⟨"Ryegrass", "Grass", 2000000/189000⟩,
           ⟨"🌿 Total Mix", "", 2000000/189000⟩] ∧
      (1058 / 100 : ℚ) < 2000000 / 189000 ∧ (2000000 / 189000 : ℚ) < 1059 / 100 := by
  have h := C2_equal_share_rates (calculate_field_establishment 115) 10 100
      [⟨"Ryegrass", .Grass, 7/10, 9/10, 300000⟩]
      (by norm_num [calculate_field_establishment])
      (by intro s hs
          simp only [List.mem_singleton] at hs
          subst hs
          norm_num [viableSeedsPerKg, calculate_pls])
      (by simp)
  refine ⟨h.trans ?_, by norm_num, by norm_num⟩
  simp [perSpeciesRows, expectedRow, grassOf, legumeOf, totalMixRow,
    calculate_field_establishment, PlantType.str, List.filter_cons]
  norm_num

/-- C5. Every successful run ends with exactly one synthetic Total Mix
record: the output is the per-species rows (each with a nonempty type
field) followed by one row with species "🌿 Total Mix", empty type field
and rate equal to the sum of all per-species rates. -/
theorem C5_total_mix_row (fe totalTarget grassSplit : ℚ) (species : List SpeciesInput)
    (rows : List SowingResult)
    (h : computeSowingRates fe totalTarget grassSplit species = .ok rows) :
    ∃ pre tot, rows = pre ++ [tot] ∧
      tot.species = "🌿 Total Mix" ∧ tot.type = "" ∧
      tot.sowingRateKgPerHa = (pre.map SowingResult.sowingRateKgPerHa).sum ∧
      ∀ r ∈ pre, r.type ≠ "" := by
  simp only [computeSowingRates] at h
  split at h
  next => cases h
  next grassRows hg =>
    split at h
    next => cases h
    next legumeRows hl =>
      split at h
      next => cases h
      next =>
        injection h with h1
        subst h1
        refine ⟨grassRows ++ legumeRows, totalMixRow (grassRows ++ legumeRows),
          rfl, rfl, rfl, rfl, ?_⟩
        intro r hr
        rcases List.mem_append.mp hr with hr2 | hr2
        · exact speciesRows_ok_type_ne _ _ _ _ _ hg r hr2
        · exact speciesRows_ok_type_ne _ _ _ _ _ hl r hr2

/-- Witness for C5, at the one-grass-species scenario. -/
theorem C5_witness :
    ∃ pre tot,
      ([⟨"Ryegrass", "Grass", 2000000/189000⟩, ⟨"🌿 Total Mix", "", 2000000/189000⟩]
          : List SowingResult) = pre ++ [tot] ∧
        tot.species = "🌿 Total Mix" ∧ tot.type = "" ∧
        tot.sowingRateKgPerHa = (pre.map SowingResult.sowingRateKgPerHa).sum ∧
        ∀ r ∈ pre, r.type ≠ "" :=
  C5_total_mix_row (1/20) 10 100 [⟨"Ryegrass", .Grass, 7/10, 9/10, 300000⟩] _
    (by simp [computeSowingRates, speciesRows, speciesRow, pyDiv, grassOf, legumeOf,
          totalMixRow, calculate_pls, PlantType.str, List.filter_cons]
        norm_num)

/-- C6. The per-species part of the output (everything except the final
Total Mix row) lists all grass species in input order followed by all
legume species in input order: the stable partition of the input by plant
type, grass first. -/
theorem C6_output_order (fe totalTarget grassSplit : ℚ) (species : List SpeciesInput)
    (rows : List SowingResult)
    (h : computeSowingRates fe totalTarget grassSplit species = .ok rows) :
    rows.dropLast.map (fun r => (r.species, r.type)) =
      (grassOf species).map (fun s => (s.species, s.plantType.str))
        ++ (legumeOf species).map (fun s => (s.species, s.plantType.str)) := by
  simp only [computeSowingRates] at h
  split at h
  next => cases h
  next grassRows hg =>
    split at h
    next => cases h
    next legumeRows hl =>
      split at h
      next => cases h
      next =>
        injection h with h1
        subst h1
        rw [List.dropLast_concat, List.map_append,
          (speciesRows_ok_inv _ _ _ _ _ hg).1, (speciesRows_ok_inv _ _ _ _ _ hl).1]

/-- Witness for C6: a legume listed before a grass in the input is emitted
after it in the output. -/
theorem C6_witness :
    (([⟨"Rye", "Grass", 1000000/189000⟩, ⟨"Clover", "Legume", 1000000/315000⟩,
        ⟨"🌿 Total Mix", "", 1000000/189000 + 1000000/315000⟩] : List SowingResult)).dropLast.map
        (fun r => (r.species, r.type)) =
      (grassOf [⟨"Clover", .Legume, 7/10, 9/10, 500000⟩, ⟨"Rye", .Grass, 7/10, 9/10, 300000⟩]).map
          (fun s => (s.species, s.plantType.str))
        ++ (legumeOf [⟨"Clover", .Legume, 7/10, 9/10, 500000⟩,
            ⟨"Rye", .Grass, 7/10, 9/10, 300000⟩]).map
          (fun s => (s.species, s.plantType.str)) :=
  C6_output_order (1/20) 10 50
    [⟨"Clover", .Legume, 7/10, 9/10, 500000⟩, ⟨"Rye", .Grass, 7/10, 9/10, 300000⟩] _
    (by simp [computeSowingRates, speciesRows, speciesRow, pyDiv, grassOf, legumeOf,
          totalMixRow, calculate_pls, PlantType.str, List.filter_cons]
        norm_num)

/-- C3 counterexample. With a positive legume target density (total 10,
grass split 70, so legume target 3 > 0) and zero legume species, the run
does not fail at all: it succeeds with only the grass row and the Total Mix
row, contradicting the claim that it fails with an EmptyTypeGroup error. -/
theorem C3_counterexample :
    computeSowingRates (1/20) 10 70 [⟨"Phalaris", .Grass, 7/10, 9/10, 300000⟩] =
      .ok [⟨"Phalaris", "Grass", 1400000/189000⟩,
           ⟨"🌿 Total Mix", "", 1400000/189000⟩] ∧
      (0 : ℚ) < 10 * ((100 - 70) / 100) := by
  constructor
  · simp [computeSowingRates, speciesRows, speciesRow, pyDiv, grassOf, legumeOf,
      totalMixRow, calculate_pls, PlantType.str, List.filter_cons] <;> norm_num
  · norm_num

/-- C3 amended. The code never raises an EmptyTypeGroup error: the
per-species division by the type's species count sits inside the loop over
that type's species, so when a plant type (Grass or Legume) has a positive
target density but zero species of that type, the loop body for that type
never runs.  The run succeeds (given valid remaining species) and its
output simply contains no row of the empty type — that type's target is
silently dropped. -/
theorem C3_amended (pt : PlantType) (fe totalTarget grassSplit : ℚ)
    (species : List SpeciesInput)
    (hfe : fe ≠ 0) (hv : ∀ s ∈ species, viableSeedsPerKg s ≠ 0) (hne : species ≠ [])
    (hempty : typeGroupOf pt species = [])
    (hpos : 0 < typeTargetOf pt totalTarget grassSplit) :
    ∃ rows, computeSowingRates fe totalTarget grassSplit species = .ok rows ∧
      ∀ r ∈ rows, r.type ≠ pt.str := by
  refine ⟨_, computeSowingRates_ok fe totalTarget grassSplit species hfe hv hne, ?_⟩
  intro r hr
  rcases List.mem_append.mp hr with hr2 | hr2
  · simp only [perSpeciesRows, List.mem_append] at hr2
    rcases hr2 with hg | hl
    · obtain ⟨s, hs, rfl⟩ := List.mem_map.mp hg
      have hsG : s.plantType = .Grass := by
        simp only [grassOf, List.mem_filter] at hs
        simpa using hs.2
      cases pt with
      | Grass =>
          simp only [typeGroupOf] at hempty
          rw [hempty] at hs
          cases hs
      | Legume => simp [expectedRow, hsG, PlantType.str]
    · obtain ⟨s, hs, rfl⟩ := List.mem_map.mp hl
      have hsL : s.plantType = .Legume := by
        simp only [legumeOf, List.mem_filter] at hs
        simpa using hs.2
      cases pt with
      | Grass => simp [expectedRow, hsL, PlantType.str]
      | Legume =>
          simp only [typeGroupOf] at hempty
          rw [hempty] at hs
          cases hs
  · simp only [List.mem_singleton] at hr2
    subst hr2
    cases pt <;> simp [totalMixRow, PlantType.str]

/-- Witness for C3 amended, in both directions: the counterexample
scenario (positive legume target, zero legumes) and its mirror (positive
grass target, zero grasses). -/
theorem C3_amended_witness :
    (∃ rows,
        computeSowingRates (1/20) 10 70 [⟨"Phalaris", .Grass, 7/10, 9/10, 300000⟩] =
          .ok rows ∧ ∀ r ∈ rows, r.type ≠ PlantType.Legume.str) ∧
      (∃ rows,
        computeSowingRates (1/20) 10 70 [⟨"Clover", .Legume, 7/10, 9/10, 500000⟩] =
          .ok rows ∧ ∀ r ∈ rows, r.type ≠ PlantType.Grass.str) :=
  ⟨C3_amended .Legume (1/20) 10 70 [⟨"Phalaris", .Grass, 7/10, 9/10, 300000⟩]
      (by norm_num)
      (by intro s hs
          simp only [List.mem_singleton] at hs
          subst hs
          norm_num [viableSeedsPerKg, calculate_pls])
      (by simp)
      (by simp [typeGroupOf, legumeOf, List.filter_cons])
      (by norm_num [typeTargetOf]),
    C3_amended .Grass (1/20) 10 70 [⟨"Clover", .Legume, 7/10, 9/10, 500000⟩]
      (by norm_num)
      (by intro s hs
          simp only [List.mem_singleton] at hs
          subst hs
          norm_num [viableSeedsPerKg, calculate_pls])
      (by simp)
      (by simp [typeGroupOf, grassOf, List.filter_cons])
      (by norm_num [typeTargetOf])⟩

/-- C7 counterexample. A species with `seedsPerKg = -1` (≤ 0) does not
make the computation fail at all: it yields a negative rate.  And
`seedsPerKg = 0` fails with the raw division-by-zero fault, not a named
InvalidSpeciesAttribute error. -/
theorem C7_counterexample :
    computeSowingRates (1/20) 10 100 [⟨"NegSeeds", .Grass, 7/10, 9/10, -1⟩] =
      .ok [⟨"NegSeeds", "Grass", -200000000/63⟩,
           ⟨"🌿 Total Mix", "", -200000000/63⟩] ∧
      ((-1 : ℚ) ≤ 0) ∧
      computeSowingRates (1/20) 10 100 [⟨"ZeroSeeds", .Grass, 7/10, 9/10, 0⟩] =
        .error .zeroDivisionError := by
  refine ⟨?_, by norm_num, ?_⟩ <;>
    (simp [computeSowingRates, speciesRows, speciesRow, pyDiv, grassOf, legumeOf,
       totalMixRow, calculate_pls, PlantType.str, List.filter_cons] <;> norm_num)

/-- C7 amended. A species whose viable seed yield
(`seedsPerKg * purity * germination`) is zero makes the computation fail
with the raw `ZeroDivisionError` numeric fault (there is no
InvalidSpeciesAttribute error), while a negative `seedsPerKg` with nonzero
viable yield produces a sign-flipped rate with no error (see the
counterexample). -/
theorem C7_amended (fe totalTarget grassSplit : ℚ) (species : List SpeciesInput)
    (s : SpeciesInput) (hs : s ∈ species) (hfe : fe ≠ 0)
    (hv : viableSeedsPerKg s = 0) :
    computeSowingRates fe totalTarget grassSplit species = .error .zeroDivisionError := by
  cases hpt : s.plantType with
  | Grass =>
      have hsG : s ∈ grassOf species := by
        simp only [grassOf, List.mem_filter]
        exact ⟨hs, by simp [hpt]⟩
      have hlen : (grassOf species).length ≠ 0 := by
        intro h0
        rw [List.length_eq_zero] at h0
        rw [h0] at hsG
        cases hsG
      have herr := speciesRows_viable_zero (totalTarget * (grassSplit / 100))
          (grassOf species).length fe (grassOf species) s hsG hv hlen hfe
      simp [computeSowingRates, herr]
  | Legume =>
      have hsL : s ∈ legumeOf species := by
        simp only [legumeOf, List.mem_filter]
        exact ⟨hs, by simp [hpt]⟩
      have hlen : (legumeOf species).length ≠ 0 := by
        intro h0
        rw [List.length_eq_zero] at h0
        rw [h0] at hsL
        cases hsL
      have herr := speciesRows_viable_zero (totalTarget * ((100 - grassSplit) / 100))
          (legumeOf species).length fe (legumeOf species) s hsL hv hlen hfe
      simp only [computeSowingRates]
      cases hg : speciesRows (totalTarget * (grassSplit / 100)) (grassOf species).length fe
          (grassOf species) with
      | error e =>
          have he := speciesRows_error_imp _ _ _ _ _ hg
          subst he
          simp
      | ok grassRows => simp [herr]

/-- Witness for C7 amended: `seedsPerKg = 0` gives a raw division fault. -/
theorem C7_witness :
    computeSowingRates (1/20) 10 100 [⟨"ZeroYield", .Grass, 7/10, 9/10, 0⟩] =
      .error .zeroDivisionError :=
  C7_amended (1/20) 10 100 [⟨"ZeroYield", .Grass, 7/10, 9/10, 0⟩]
    ⟨"ZeroYield", .Grass, 7/10, 9/10, 0⟩ (by simp) (by norm_num)
    (by norm_num [viableSeedsPerKg, calculate_pls])

/-- C8 counterexample. A negative field establishment (-1/20 ≤ 0) does
not make the computation fail: it silently produces negative rates,
contradicting the claim that every `fe ≤ 0` fails with an
InvalidFieldEstablishment error before any rate arithmetic. -/
theorem C8_counterexample :
    computeSowingRates (-(1/20)) 10 100 [⟨"Rye", .Grass, 7/10, 9/10, 300000⟩] =
      .ok [⟨"Rye", "Grass", -2000000/189000⟩,
           ⟨"🌿 Total Mix", "", -2000000/189000⟩] ∧
      (-(1/20) : ℚ) ≤ 0 := by
  constructor
  · simp [computeSowingRates, speciesRows, speciesRow, pyDiv, grassOf, legumeOf,
      totalMixRow, calculate_pls, PlantType.str, List.filter_cons] <;> norm_num
  · norm_num

/-- C8 amended. There is no InvalidFieldEstablishment error.
`fe = 0` with at least one species fails with the raw `ZeroDivisionError`
inside the first species' rate arithmetic (not before it), while `fe < 0`
does not fail at all: valid species produce (negative) rates. -/
theorem C8_amended (fe totalTarget grassSplit : ℚ) (species : List SpeciesInput)
    (hne : species ≠ []) :
    (fe = 0 → computeSowingRates fe totalTarget grassSplit species =
        .error .zeroDivisionError) ∧
      (fe < 0 → (∀ s ∈ species, viableSeedsPerKg s ≠ 0) →
        ∃ rows, computeSowingRates fe totalTarget grassSplit species = .ok rows) := by
  constructor
  · intro hfe0
    subst hfe0
    simp only [computeSowingRates]
    cases hG : grassOf species with
    | cons g gs =>
        rw [speciesRows_fe_zero _ _ g gs (by simp)]
    | nil =>
        have hL : legumeOf species ≠ [] := by
          intro h0
          have hlen := grass_add_legume_length species
          rw [hG, h0] at hlen
          simp at hlen
          exact hne (List.length_eq_zero.mp hlen.symm)
        cases hL2 : legumeOf species with
        | nil => exact absurd hL2 hL
        | cons l ls =>
            have hq : ((ls.length : ℚ) + 1) ≠ 0 := by positivity
            simp [speciesRows, speciesRow, pyDiv, hq]
  · intro hneg hv
    exact ⟨_, computeSowingRates_ok fe totalTarget grassSplit species (ne_of_lt hneg) hv hne⟩

/-- Witness for C8 amended: `fe = 0` with one species gives the raw
division fault. -/
theorem C8_witness :
    computeSowingRates 0 10 100 [⟨"Rye", .Grass, 7/10, 9/10, 300000⟩] =
      .error .zeroDivisionError :=
  (C8_amended 0 10 100 [⟨"Rye", .Grass, 7/10, 9/10, 300000⟩] (by simp)).1 rfl

/-- C10. The computation is homogeneous in the total target density:
scaling the total target by `k` scales every per-species rate and the
Total Mix rate by exactly `k`, leaving species names, types and output
order unchanged (`scaleRow` keeps the name and type fields). -/
theorem C10_homogeneous (fe totalTarget grassSplit k : ℚ) (species : List SpeciesInput)
    (hfe : 0 < fe) (hv : ∀ s ∈ species, 0 < viableSeedsPerKg s) (hne : species ≠ [])
    (hk : 0 < k) :
    ∃ rows, computeSowingRates fe totalTarget grassSplit species = .ok rows ∧
      computeSowingRates fe (k * totalTarget) grassSplit species =
        .ok (rows.map (scaleRow k)) := by
  have hfe2 := ne_of_gt hfe
  have hv2 := fun s hs => ne_of_gt (hv s hs)
  refine ⟨_, computeSowingRates_ok fe totalTarget grassSplit species hfe2 hv2 hne, ?_⟩
  rw [computeSowingRates_ok fe (k * totalTarget) grassSplit species hfe2 hv2 hne,
    perSpeciesRows_scale, List.map_append, totalMixRow_scale]
  simp

/-- Witness for C10: tripling the target of the example scenario. -/
theorem C10_witness :
    ∃ rows,
      computeSowingRates (1/20) 10 100 [⟨"Ryegrass", .Grass, 7/10, 9/10, 300000⟩] =
        .ok rows ∧
      computeSowingRates (1/20) (3 * 10) 100 [⟨"Ryegrass", .Grass, 7/10, 9/10, 300000⟩] =
        .ok (rows.map (scaleRow 3)) :=
  C10_homogeneous (1/20) 10 100 3 [⟨"Ryegrass", .Grass, 7/10, 9/10, 300000⟩]
    (by norm_num)
    (by intro s hs
        simp only [List.mem_singleton] at hs
        subst hs
        norm_num [viableSeedsPerKg, calculate_pls])
    (by simp)
    (by norm_num)

end PLS
